import Mathlib

/-!
Shallow embedding of the DOBBY-TWEET-BOT source (`main.py`): a Discord bot
that polls a Twitter account, summarizes each new tweet via an external
HTTP API, relays the messages into a channel, and persists a watermark
(the last delivered tweet id) in a JSON state file.

External collaborators (the Twitter client, the Discord channel, the
aiohttp session, the file system) are modelled by explicit oracle values
describing their observable request/response behaviour; the control flow
of the Python functions is translated branch by branch.
-/

/-- A fetched tweet: identifier and body text (`tweet_fields=["created_at",
"text", "id"]`; `created_at` is display-only and never inspected by the
logic, so it is omitted from the model). -/
structure Tweet where
  id : Nat
  text : String
deriving DecidableEq, Repr

/-- A Python/JSON value as produced by `json.loads`. -/
inductive JsonVal where
  | null
  | str (s : String)
  | num (n : Int)
  | bool (b : Bool)
  | arr (elems : List JsonVal)
  | obj (fields : List (String × JsonVal))

/-- Python `dict.get(key)`: the first binding for `key`, or absent. -/
def dictGet : List (String × JsonVal) → String → Option JsonVal
  | [], _ => none
  | (k, v) :: rest, key => if k = key then some v else dictGet rest key

/-- Observable state of `tweet_tracker_state.json` as seen by
`_load_last_tweet_id`: the file may be missing, unreadable (`IOError`),
hold text that is not JSON (`json.JSONDecodeError`), or hold a decoded
JSON value. -/
inductive StateFile where
  | missing
  | unreadable
  | corrupt
  | content (j : JsonVal)

/-- `_load_last_tweet_id`: returns `None` when the file is missing;
catches `json.JSONDecodeError` and `IOError` and returns `None`; otherwise
evaluates `data.get("last_tweet_id")` (collapsing JSON `null` to Python
`None`).  `data.get` on a decoded non-dict raises `AttributeError`, which
is not caught. -/
def _load_last_tweet_id : StateFile → Except String (Option JsonVal)
  | .missing => .ok none
  | .unreadable => .ok none
  | .corrupt => .ok none
  | .content (.obj fields) =>
      .ok (match dictGet fields "last_tweet_id" with
           | some .null => none
           | some v => some v
           | none => none)
  | .content _ => .error "AttributeError"

/-- The file contents written by a successful `_save_last_tweet_id`:
`json.dumps({"last_tweet_id": tweet_id})`. -/
def saveFileContents (tweet_id : Nat) : StateFile :=
  .content (.obj [("last_tweet_id", .num (Int.ofNat tweet_id))])

/-- In-memory cog state relevant to the watermark: `self.last_tweet_id`
plus the persisted state file. -/
structure CogState where
  last_tweet_id : Option Nat
  stateFile : StateFile

/-- `_save_last_tweet_id`: writes the whole JSON record and then updates
`self.last_tweet_id`; on `IOError` (modelled by `ioOk = false`) both the
write and the in-memory update are skipped (the error is logged). -/
def _save_last_tweet_id (st : CogState) (tweet_id : Nat) (ioOk : Bool) : CogState :=
  if ioOk then
    { last_tweet_id := some tweet_id, stateFile := saveFileContents tweet_id }
  else st

/-- Observable behaviour of the summarizer HTTP POST, as seen by
`_summarize_tweet`.  `clientError` is any `aiohttp.ClientError` raised by
the request itself; otherwise a response arrives with a status code and a
body. -/
inductive SummBody where
  /-- `response.json()` raises `aiohttp.ContentTypeError` (a subclass of
  `aiohttp.ClientError`): the body's content type is not JSON. -/
  | nonJsonMime
  /-- `response.json()` raises `json.JSONDecodeError`: JSON content type
  but undecodable payload. -/
  | invalidJson
  /-- `response.json()` succeeds with this decoded value. -/
  | decoded (j : JsonVal)

inductive SummTransport where
  | clientError
  | response (status : Nat) (body : SummBody)

/-- Python subscript `d[k]` on a JSON value: `KeyError` when the key is
absent, `TypeError` when the value is not a dict. -/
def pySubscriptKey (j : JsonVal) (k : String) : Except String JsonVal :=
  match j with
  | .obj fields =>
      match dictGet fields k with
      | some v => .ok v
      | none => .error "KeyError"
  | _ => .error "TypeError"

/-- Python subscript `a[i]` on a JSON value: `IndexError` out of range,
`TypeError` when the value is not a list. -/
def pySubscriptIdx (j : JsonVal) (i : Nat) : Except String JsonVal :=
  match j with
  | .arr elems =>
      match elems.get? i with
      | some v => .ok v
      | none => .error "IndexError"
  | _ => .error "TypeError"

/-- Python `str.strip()`: drop leading and trailing whitespace. -/
def pythonStrip (s : String) : String :=
  String.mk (((s.data.dropWhile (fun c => c.isWhitespace)).reverse.dropWhile
      (fun c => c.isWhitespace)).reverse)

/-- Python `.strip()` applied to a JSON value: `AttributeError` unless it
is a string. -/
def pyStrip (j : JsonVal) : Except String String :=
  match j with
  | .str s => .ok (pythonStrip s)
  | _ => .error "AttributeError"

/-- `_summarize_tweet`: posts the templated prompt and evaluates
`data["choices"][0]["message"]["content"].strip()` on a 200 response.
The `try` block catches only `aiohttp.ClientError`, so a decode failure
with JSON content type, or a missing/ill-typed field in a decoded 200
body, propagates to the caller (`.error`).  The result is
`Except pythonException (Option summaryText)`. -/
def _summarize_tweet (_text : String) (resp : SummTransport) : Except String (Option String) :=
  match resp with
  | .clientError => .ok none
  | .response status body =>
    if status = 200 then
      match body with
      | .nonJsonMime => .ok none
      | .invalidJson => .error "JSONDecodeError"
      | .decoded data =>
        match (do
          let choices ← pySubscriptKey data "choices"
          let first ← pySubscriptIdx choices 0
          let message ← pySubscriptKey first "message"
          let content ← pySubscriptKey message "content"
          pyStrip content) with
        | .ok s => .ok (some s)
        | .error e => .error e
    else .ok none

/-- Python truthiness-based fallback `summary or tweet.text`: the raw text
is used when the summary is `None` or an empty (falsy) string. -/
def pyOr (summary : Option String) (text : String) : String :=
  match summary with
  | none => text
  | some s => if s = "" then text else s

/-- `tweet_url = f"https://twitter.com/{TWITTER_USERNAME}/status/{tweet.id}"`. -/
def tweet_url (username : String) (id : Nat) : String :=
  "https://twitter.com/" ++ username ++ "/status/" ++ toString id

/-- Observable effects of one `check_tweets` cycle, in order.  A
`sendEmbed` records the first `channel.send(embed=...)` call for the
tweet with the given id (the embed's author link and second message carry
`tweet_url`); `sendText` the second, plain `channel.send(tweet_url)`;
`savedId` a successful state-file write inside `_save_last_tweet_id`. -/
inductive Event where
  | sendEmbed (tweetId : Nat) (body : String) (url : String)
  | sendText (msg : String)
  | savedId (id : Nat)
  | slept (secs : Nat)
  | intervalMinutes (m : Nat)
  | intervalSeconds (s : Nat)
deriving DecidableEq, Repr

/-- Oracle for the fallible external calls made while processing one
tweet: the summarizer's HTTP behaviour, whether each of the two
`channel.send` calls succeeds (a failing send raises out of the cycle),
and whether the state-file write succeeds. -/
structure PostEnv where
  summResp : SummTransport
  send1Ok : Bool
  send2Ok : Bool
  saveOk : Bool

/-- The body of the `for tweet in new_tweets:` loop (lines 181-211 of
`main.py`) for a single tweet: summarize (an uncaught summarizer
exception aborts the cycle), build the embed with
`description=summary or tweet.text`, send the embed, send the raw URL,
save the watermark, sleep 1 second.  Returns the events emitted, the
updated state, and whether the iteration completed (`false` means an
exception escaped `check_tweets`, abandoning the rest of the batch).
`deliverAfterSummary` is the part after the summarizer call returned
(lines 184-211); `deliverTweet` prepends the summarizer call itself. -/
def deliverAfterSummary (username : String) (pe : PostEnv) (t : Tweet)
    (st : CogState) (summary : Option String) : List Event × CogState × Bool :=
  let body := pyOr summary t.text
  let url := tweet_url username t.id
  if pe.send1Ok then
    if pe.send2Ok then
      ([.sendEmbed t.id body url, .sendText url]
         ++ (if pe.saveOk then [.savedId t.id] else []) ++ [.slept 1],
       _save_last_tweet_id st t.id pe.saveOk, true)
    else ([.sendEmbed t.id body url], st, false)
  else ([], st, false)

def deliverTweet (username : String) (pe : PostEnv) (t : Tweet) (st : CogState) :
    List Event × CogState × Bool :=
  match _summarize_tweet t.text pe.summResp with
  | .error _ => ([], st, false)
  | .ok summary => deliverAfterSummary username pe t st summary

/-- Sequential processing of the sorted batch; the oracle `env i` gives
the external behaviour for the `i`-th processed tweet.  Stops at the
first iteration that raises. -/
def processTweets (username : String) (env : Nat → PostEnv) :
    Nat → List Tweet → CogState → List Event × CogState
  | _, [], st => ([], st)
  | i, t :: rest, st =>
    let r := deliverTweet username (env i) t st
    if r.2.2 then
      let r' := processTweets username env (i + 1) rest r.2.1
      (r.1 ++ r'.1, r'.2)
    else (r.1, r.2.1)

/-- Outcome of the `get_users_tweets` call as seen by `check_tweets`:
`tweepy.errors.TooManyRequests`, any other exception, or a response whose
`.data` is the given list (Python `None` data is the empty list). -/
inductive FetchResult where
  | tooManyRequests
  | otherError
  | ok (data : List Tweet)
deriving Repr

/-- `sorted(tweets_resp.data, key=lambda t: t.id)`. -/
def sortTweets (data : List Tweet) : List Tweet :=
  data.mergeSort (fun a b => a.id ≤ b.id)

/-- One run of the `check_tweets` task body: resolve the channel (skip
the cycle if absent), fetch (rate limit: widen the loop interval to 15
minutes, sleep, restore `CHECK_INTERVAL_SECONDS`, deliver nothing; other
fetch errors end the cycle), then deliver the sorted batch. -/
def check_tweets (username : String) (checkIntervalSeconds : Nat)
    (channelFound : Bool) (fetch : FetchResult) (env : Nat → PostEnv)
    (st : CogState) : List Event × CogState :=
  if channelFound then
    match fetch with
    | .tooManyRequests =>
        ([.intervalMinutes 15, .slept 1, .intervalSeconds checkIntervalSeconds], st)
    | .otherError => ([], st)
    | .ok data =>
        let new_tweets := sortTweets data
        if new_tweets.isEmpty then ([], st)
        else processTweets username env 0 new_tweets st
  else ([], st)

/-- Documented contract of the source platform's `since_id` parameter
(external collaborator, not part of this repository's code): the fetch
returns only posts with identifier strictly greater than `since_id`, or
recent posts unconstrained when `since_id` is absent.  `check_tweets`
passes `since_id=self.last_tweet_id`. -/
def fetchSince (upstream : List Tweet) (sinceId : Option Nat) : List Tweet :=
  match sinceId with
  | none => upstream
  | some s => upstream.filter (fun t => s < t.id)

/-- The fetch step of a cycle against an upstream holding `upstream`,
honouring the `since_id` contract; the upstream may instead rate-limit or
fail. -/
inductive FetchOutcome where
  | tooManyRequests
  | otherError
  | ok
deriving DecidableEq, Repr

def cycleFetch (o : FetchOutcome) (upstream : List Tweet) (sinceId : Option Nat) :
    FetchResult :=
  match o with
  | .tooManyRequests => .tooManyRequests
  | .otherError => .otherError
  | .ok => .ok (fetchSince upstream sinceId)

/-- A full poll cycle against an upstream obeying the `since_id`
contract. -/
def check_tweets_cycle (username : String) (checkIntervalSeconds : Nat)
    (channelFound : Bool) (o : FetchOutcome) (upstream : List Tweet)
    (env : Nat → PostEnv) (st : CogState) : List Event × CogState :=
  check_tweets username checkIntervalSeconds channelFound
    (cycleFetch o upstream st.last_tweet_id) env st

/-- Ids of the tweets for which the rich (embed) message was delivered,
in delivery order. -/
def deliveredIds (evs : List Event) : List Nat :=
  evs.filterMap (fun e => match e with | .sendEmbed id _ _ => some id | _ => none)

/-- Ids written to the state file, in write order. -/
def savedIds (evs : List Event) : List Nat :=
  evs.filterMap (fun e => match e with | .savedId id => some id | _ => none)

/-- Every watermark write in the trace happens strictly after both
channel messages for that same post. -/
def savesAfterSends (username : String) (evs : List Event) : Prop :=
  ∀ l₁ l₂ id, evs = l₁ ++ Event.savedId id :: l₂ →
    (∃ b, Event.sendEmbed id b (tweet_url username id) ∈ l₁) ∧
    Event.sendText (tweet_url username id) ∈ l₁

/-- Events observable during `cog_load` startup. -/
inductive StartEvent where
  | attempt (k : Nat)
  | slept (secs : Nat)
  | closedSession
  | closedBot
deriving DecidableEq, Repr

/-- How `cog_load` ends: `polling wm` means the user id was resolved, the
watermark `wm` was loaded and `check_tweets.start()` was called; `halted`
means all retries failed, the session was released and `bot.close()` was
called; `raised` means `_load_last_tweet_id` raised. -/
inductive CogLoadOutcome where
  | polling (wm : Option JsonVal)
  | halted
  | raised

/-- The `for attempt in range(max_retries)` loop of `cog_load`
(`max_retries = 4`), run over the remaining attempt indices.  `getUser k`
is the result of `_get_twitter_user_id()` on attempt `k` (that helper
catches all of its own exceptions and returns `None` on failure).  A
failed attempt sleeps `2 ** attempt * 60` seconds; after the loop the
shared aiohttp session is closed if still open, then the bot is
stopped. -/
def cogLoadLoop (getUser : Nat → Option Nat) (sf : StateFile) (sessionOpen : Bool) :
    List Nat → List StartEvent × CogLoadOutcome
  | [] => ((if sessionOpen then [.closedSession] else []) ++ [.closedBot], .halted)
  | a :: rest =>
    match getUser a with
    | some _ =>
        match _load_last_tweet_id sf with
        | .ok wm => ([.attempt a], .polling wm)
        | .error _ => ([.attempt a], .raised)
    | none =>
        let r := cogLoadLoop getUser sf sessionOpen rest
        (.attempt a :: .slept (2 ^ a * 60) :: r.1, r.2)

/-- `cog_load`: the retry loop over attempts `0, 1, 2, 3`. -/
def cog_load (getUser : Nat → Option Nat) (sf : StateFile) (sessionOpen : Bool) :
    List StartEvent × CogLoadOutcome :=
  cogLoadLoop getUser sf sessionOpen [0, 1, 2, 3]

/-- Number of `_get_twitter_user_id` attempts recorded in a startup
trace. -/
def countAttempts (evs : List StartEvent) : Nat :=
  (evs.filter (fun e => match e with | .attempt _ => true | _ => false)).length

/-- The environment variables read at module load (each either absent or
set to a string). -/
structure ProcEnv where
  DISCORD_TOKEN : Option String
  DISCORD_CHANNEL_ID : Option String
  TWITTER_BEARER_TOKEN : Option String
  TWITTER_USERNAME : Option String
  SENTIENT_API_KEY : Option String

/-- Python truthiness of an `os.getenv` result: `None` and the empty
string are falsy. -/
def pyTruthy : Option String → Bool
  | none => false
  | some s => !(s = "")

def digitsValAux : Nat → List Char → Option Nat
  | acc, [] => some acc
  | acc, c :: cs => if c.isDigit then digitsValAux (acc * 10 + (c.toNat - 48)) cs else none

def digitsVal : List Char → Option Nat
  | [] => none
  | cs => digitsValAux 0 cs

/-- Decimal integer written the way Python `int(str)` accepts it (an
optional sign then digits; Python additionally strips whitespace and
allows underscores, which no claim depends on). -/
def pyParseInt (s : String) : Option Int :=
  match s.data with
  | '-' :: rest => (digitsVal rest).map (fun n => -(n : Int))
  | cs => (digitsVal cs).map (fun n => (n : Int))

/-- Python `int()` applied to an `os.getenv` result: `int(None)` raises
`TypeError`; a string that does not parse as an integer raises
`ValueError`. -/
def pyIntOfEnv : Option String → Except String Int
  | none => .error "TypeError"
  | some s =>
      match pyParseInt s with
      | some n => .ok n
      | none => .error "ValueError"

/-- How the process startup ends. -/
inductive StartupOutcome where
  /-- An exception escaped module initialization (nothing was logged by
  the program and nothing ran). -/
  | uncaughtError (e : String)
  /-- The `__main__` guard logged a critical error and fell through
  without constructing or running the bot. -/
  | criticalNoStart
  /-- `bot.run(DISCORD_TOKEN)` was reached. -/
  | runsBot
deriving DecidableEq, Repr

/-- Process startup: module initialization evaluates
`int(os.getenv("DISCORD_CHANNEL_ID"))` at line 24 before anything else
can run; then the `__main__` guard checks
`all([DISCORD_TOKEN, TWITTER_BEARER_TOKEN, SENTIENT_API_KEY,
TWITTER_USERNAME])` and either logs critical and exits or runs the
bot. -/
def mainStartup (e : ProcEnv) : StartupOutcome :=
  match pyIntOfEnv e.DISCORD_CHANNEL_ID with
  | .error exc => .uncaughtError exc
  | .ok _ =>
      if pyTruthy e.DISCORD_TOKEN && pyTruthy e.TWITTER_BEARER_TOKEN
          && pyTruthy e.SENTIENT_API_KEY && pyTruthy e.TWITTER_USERNAME then
        .runsBot
      else .criticalNoStart

theorem deliveredIds_append (e₁ e₂ : List Event) :
    deliveredIds (e₁ ++ e₂) = deliveredIds e₁ ++ deliveredIds e₂ :=
  List.filterMap_append e₁ e₂ _

theorem savedIds_append (e₁ e₂ : List Event) :
    savedIds (e₁ ++ e₂) = savedIds e₁ ++ savedIds e₂ :=
  List.filterMap_append e₁ e₂ _

theorem savesAfterSends_of_no_saved (u : String) (evs : List Event)
    (h : savedIds evs = []) : savesAfterSends u evs := by
  intro l₁ l₂ id he
  exfalso
  have hm : Event.savedId id ∈ evs := by
    rw [he]; exact List.mem_append_right _ (List.mem_cons_self _ _)
  have : id ∈ savedIds evs := List.mem_filterMap.mpr ⟨Event.savedId id, hm, rfl⟩
  rw [h] at this
  exact List.not_mem_nil _ this

theorem savesAfterSends_append (u : String) (e₁ e₂ : List Event)
    (h₁ : savesAfterSends u e₁) (h₂ : savesAfterSends u e₂) :
    savesAfterSends u (e₁ ++ e₂) := by
  intro l₁ l₂ id he
  rcases List.append_eq_append_iff.mp he.symm with ⟨a, ha₁, ha₂⟩ | ⟨c, hc₁, hc₂⟩
  · cases a with
    | nil =>
      obtain ⟨⟨b, hb⟩, _⟩ := h₂ [] l₂ id (by simpa using ha₂.symm)
      exact absurd hb (List.not_mem_nil _)
    | cons x a' =>
      obtain ⟨hx, hrest⟩ := List.cons.inj ha₂
      exact h₁ l₁ a' id (by rw [ha₁, hx])
  · obtain ⟨⟨b, hb⟩, ht⟩ := h₂ c l₂ id hc₂
    rw [hc₁]
    exact ⟨⟨b, List.mem_append_right _ hb⟩, List.mem_append_right _ ht⟩

theorem deliverAfterSummary_shape (u : String) (pe : PostEnv) (t : Tweet)
    (st : CogState) (s : Option String) :
    ((deliverAfterSummary u pe t st s).1 = [] ∧ (deliverAfterSummary u pe t st s).2.1 = st)
    ∨ ((deliverAfterSummary u pe t st s).1
          = [.sendEmbed t.id (pyOr s t.text) (tweet_url u t.id)]
        ∧ (deliverAfterSummary u pe t st s).2.1 = st)
    ∨ ((deliverAfterSummary u pe t st s).1
          = [.sendEmbed t.id (pyOr s t.text) (tweet_url u t.id),
             .sendText (tweet_url u t.id), .slept 1]
        ∧ (deliverAfterSummary u pe t st s).2.1 = st)
    ∨ ((deliverAfterSummary u pe t st s).1
          = [.sendEmbed t.id (pyOr s t.text) (tweet_url u t.id),
             .sendText (tweet_url u t.id), .savedId t.id, .slept 1]
        ∧ (deliverAfterSummary u pe t st s).2.1
            = { last_tweet_id := some t.id, stateFile := saveFileContents t.id }) := by
  unfold deliverAfterSummary
  cases h1 : pe.send1Ok with
  | false => exact Or.inl (by simp)
  | true =>
    cases h2 : pe.send2Ok with
    | false => exact Or.inr (Or.inl (by simp))
    | true =>
      cases h3 : pe.saveOk with
      | false => exact Or.inr (Or.inr (Or.inl (by simp [_save_last_tweet_id])))
      | true => exact Or.inr (Or.inr (Or.inr (by simp [_save_last_tweet_id])))

theorem deliverTweet_shape (u : String) (pe : PostEnv) (t : Tweet) (st : CogState) :
    ((deliverTweet u pe t st).1 = [] ∧ (deliverTweet u pe t st).2.1 = st)
    ∨ (∃ b, ((deliverTweet u pe t st).1 = [.sendEmbed t.id b (tweet_url u t.id)]
        ∧ (deliverTweet u pe t st).2.1 = st))
    ∨ (∃ b, ((deliverTweet u pe t st).1
          = [.sendEmbed t.id b (tweet_url u t.id), .sendText (tweet_url u t.id), .slept 1]
        ∧ (deliverTweet u pe t st).2.1 = st))
    ∨ (∃ b, ((deliverTweet u pe t st).1
          = [.sendEmbed t.id b (tweet_url u t.id), .sendText (tweet_url u t.id),
             .savedId t.id, .slept 1]
        ∧ (deliverTweet u pe t st).2.1
            = { last_tweet_id := some t.id, stateFile := saveFileContents t.id })) := by
  unfold deliverTweet
  cases hs : _summarize_tweet t.text pe.summResp with
  | error e => exact Or.inl ⟨rfl, rfl⟩
  | ok s =>
    rcases deliverAfterSummary_shape u pe t st s with ⟨h, h'⟩ | ⟨h, h'⟩ | ⟨h, h'⟩ | ⟨h, h'⟩
    · exact Or.inl ⟨h, h'⟩
    · exact Or.inr (Or.inl ⟨pyOr s t.text, h, h'⟩)
    · exact Or.inr (Or.inr (Or.inl ⟨pyOr s t.text, h, h'⟩))
    · exact Or.inr (Or.inr (Or.inr ⟨pyOr s t.text, h, h'⟩))

theorem deliverTweet_deliveredIds (u : String) (pe : PostEnv) (t : Tweet) (st : CogState) :
    (deliveredIds (deliverTweet u pe t st).1).Sublist [t.id] := by
  rcases deliverTweet_shape u pe t st with ⟨h, _⟩ | ⟨b, h, _⟩ | ⟨b, h, _⟩ | ⟨b, h, _⟩ <;>
    rw [h] <;> simp [deliveredIds]

theorem deliverTweet_savedIds (u : String) (pe : PostEnv) (t : Tweet) (st : CogState) :
    (savedIds (deliverTweet u pe t st).1).Sublist [t.id] := by
  rcases deliverTweet_shape u pe t st with ⟨h, _⟩ | ⟨b, h, _⟩ | ⟨b, h, _⟩ | ⟨b, h, _⟩ <;>
    rw [h] <;> simp [savedIds]

theorem deliverTweet_saved_sub_delivered (u : String) (pe : PostEnv) (t : Tweet)
    (st : CogState) (id : Nat) (h : id ∈ savedIds (deliverTweet u pe t st).1) :
    id ∈ deliveredIds (deliverTweet u pe t st).1 := by
  rcases deliverTweet_shape u pe t st with ⟨he, _⟩ | ⟨b, he, _⟩ | ⟨b, he, _⟩ | ⟨b, he, _⟩ <;>
    rw [he] at h ⊢ <;> simp [savedIds, deliveredIds] at h ⊢ <;> simp [h]

theorem deliverTweet_savesAfterSends (u : String) (pe : PostEnv) (t : Tweet)
    (st : CogState) : savesAfterSends u (deliverTweet u pe t st).1 := by
  rcases deliverTweet_shape u pe t st with ⟨he, _⟩ | ⟨b, he, _⟩ | ⟨b, he, _⟩ | ⟨b, he, _⟩
  · rw [he]; exact savesAfterSends_of_no_saved u [] rfl
  · rw [he]; exact savesAfterSends_of_no_saved u _ (by simp [savedIds])
  · rw [he]; exact savesAfterSends_of_no_saved u _ (by simp [savedIds])
  · rw [he]
    intro l₁ l₂ id hsplit
    rcases l₁ with _ | ⟨x₁, _ | ⟨x₂, _ | ⟨x₃, _ | ⟨x₄, l₁'⟩⟩⟩⟩
    · simp at hsplit
    · simp at hsplit
    · simp at hsplit
      obtain ⟨h1, h2, h3, -⟩ := hsplit
      exact ⟨⟨b, by rw [← h3, ← h1]; exact List.mem_cons_self _ _⟩,
             by rw [← h3, ← h2]; exact List.mem_cons_of_mem _ (List.mem_cons_self _ _)⟩
    · simp at hsplit
    · simp at hsplit

theorem deliverTweet_state (u : String) (pe : PostEnv) (t : Tweet) (st : CogState) :
    (deliverTweet u pe t st).2.1 = st
    ∨ ((deliverTweet u pe t st).2.1.last_tweet_id = some t.id
        ∧ t.id ∈ deliveredIds (deliverTweet u pe t st).1) := by
  rcases deliverTweet_shape u pe t st with ⟨he, h'⟩ | ⟨b, he, h'⟩ | ⟨b, he, h'⟩ | ⟨b, he, h'⟩
  · exact Or.inl h'
  · exact Or.inl h'
  · exact Or.inl h'
  · exact Or.inr ⟨by rw [h'], by rw [he]; simp [deliveredIds]⟩

theorem processTweets_deliveredIds (u : String) (env : Nat → PostEnv) :
    ∀ (ts : List Tweet) (i : Nat) (st : CogState),
      (deliveredIds (processTweets u env i ts st).1).Sublist (ts.map Tweet.id) := by
  intro ts
  induction ts with
  | nil => intro i st; simp [processTweets, deliveredIds]
  | cons t rest ih =>
    intro i st
    simp only [processTweets]
    cases hc : (deliverTweet u (env i) t st).2.2 with
    | true =>
      simp only [hc, if_true]
      rw [deliveredIds_append, List.map_cons]
      exact List.Sublist.append (deliverTweet_deliveredIds u (env i) t st)
        (ih (i + 1) (deliverTweet u (env i) t st).2.1)
    | false =>
      simp only [hc, Bool.false_eq_true, if_false]
      exact (deliverTweet_deliveredIds u (env i) t st).trans
        (List.Sublist.cons₂ t.id (List.nil_sublist _))

theorem processTweets_savedIds (u : String) (env : Nat → PostEnv) :
    ∀ (ts : List Tweet) (i : Nat) (st : CogState),
      (savedIds (processTweets u env i ts st).1).Sublist (ts.map Tweet.id) := by
  intro ts
  induction ts with
  | nil => intro i st; simp [processTweets, savedIds]
  | cons t rest ih =>
    intro i st
    simp only [processTweets]
    cases hc : (deliverTweet u (env i) t st).2.2 with
    | true =>
      simp only [hc, if_true]
      rw [savedIds_append, List.map_cons]
      exact List.Sublist.append (deliverTweet_savedIds u (env i) t st)
        (ih (i + 1) (deliverTweet u (env i) t st).2.1)
    | false =>
      simp only [hc, Bool.false_eq_true, if_false]
      exact (deliverTweet_savedIds u (env i) t st).trans
        (List.Sublist.cons₂ t.id (List.nil_sublist _))

theorem processTweets_saved_sub_delivered (u : String) (env : Nat → PostEnv) :
    ∀ (ts : List Tweet) (i : Nat) (st : CogState) (id : Nat),
      id ∈ savedIds (processTweets u env i ts st).1 →
      id ∈ deliveredIds (processTweets u env i ts st).1 := by
  intro ts
  induction ts with
  | nil => intro i st id h; simpa [processTweets, savedIds, deliveredIds] using h
  | cons t rest ih =>
    intro i st id h
    simp only [processTweets] at h ⊢
    cases hc : (deliverTweet u (env i) t st).2.2 with
    | true =>
      simp only [hc, if_true] at h ⊢
      rw [savedIds_append] at h
      rw [deliveredIds_append]
      rcases List.mem_append.mp h with h' | h'
      · exact List.mem_append_left _ (deliverTweet_saved_sub_delivered u (env i) t st id h')
      · exact List.mem_append_right _ (ih (i + 1) (deliverTweet u (env i) t st).2.1 id h')
    | false =>
      simp only [hc, Bool.false_eq_true, if_false] at h ⊢
      exact deliverTweet_saved_sub_delivered u (env i) t st id h

theorem processTweets_savesAfterSends (u : String) (env : Nat → PostEnv) :
    ∀ (ts : List Tweet) (i : Nat) (st : CogState),
      savesAfterSends u (processTweets u env i ts st).1 := by
  intro ts
  induction ts with
  | nil =>
    intro i st
    exact savesAfterSends_of_no_saved u _ (by simp [processTweets, savedIds])
  | cons t rest ih =>
    intro i st
    simp only [processTweets]
    cases hc : (deliverTweet u (env i) t st).2.2 with
    | true =>
      simp only [hc, if_true]
      exact savesAfterSends_append u _ _ (deliverTweet_savesAfterSends u (env i) t st)
        (ih (i + 1) (deliverTweet u (env i) t st).2.1)
    | false =>
      simp only [hc, Bool.false_eq_true, if_false]
      exact deliverTweet_savesAfterSends u (env i) t st

theorem processTweets_state (u : String) (env : Nat → PostEnv) :
    ∀ (ts : List Tweet) (i : Nat) (st : CogState),
      (processTweets u env i ts st).2.last_tweet_id = st.last_tweet_id
      ∨ ∃ id ∈ deliveredIds (processTweets u env i ts st).1,
          (processTweets u env i ts st).2.last_tweet_id = some id := by
  intro ts
  induction ts with
  | nil => intro i st; exact Or.inl rfl
  | cons t rest ih =>
    intro i st
    simp only [processTweets]
    cases hc : (deliverTweet u (env i) t st).2.2 with
    | true =>
      simp only [hc, if_true]
      rcases ih (i + 1) (deliverTweet u (env i) t st).2.1 with h | ⟨id, hmem, hval⟩
      · rcases deliverTweet_state u (env i) t st with h' | ⟨h', hmem'⟩
        · exact Or.inl (by rw [h, h'])
        · refine Or.inr ⟨t.id, ?_, ?_⟩
          · rw [deliveredIds_append]
            exact List.mem_append_left _ hmem'
          · rw [h, h']
      · refine Or.inr ⟨id, ?_, hval⟩
        rw [deliveredIds_append]
        exact List.mem_append_right _ hmem
    | false =>
      simp only [hc, Bool.false_eq_true, if_false]
      rcases deliverTweet_state u (env i) t st with h' | ⟨h', hmem'⟩
      · exact Or.inl (by rw [h'])
      · exact Or.inr ⟨t.id, hmem', h'⟩

theorem deliverTweet_state_saved (u : String) (pe : PostEnv) (t : Tweet) (st : CogState) :
    (deliverTweet u pe t st).2.1 = st
    ∨ ((deliverTweet u pe t st).2.1.last_tweet_id = some t.id
        ∧ t.id ∈ savedIds (deliverTweet u pe t st).1) := by
  rcases deliverTweet_shape u pe t st with ⟨he, h'⟩ | ⟨b, he, h'⟩ | ⟨b, he, h'⟩ | ⟨b, he, h'⟩
  · exact Or.inl h'
  · exact Or.inl h'
  · exact Or.inl h'
  · exact Or.inr ⟨by rw [h'], by rw [he]; simp [savedIds]⟩

theorem processTweets_state_saved (u : String) (env : Nat → PostEnv) :
    ∀ (ts : List Tweet) (i : Nat) (st : CogState),
      (processTweets u env i ts st).2.last_tweet_id = st.last_tweet_id
      ∨ ∃ id ∈ savedIds (processTweets u env i ts st).1,
          (processTweets u env i ts st).2.last_tweet_id = some id := by
  intro ts
  induction ts with
  | nil => intro i st; exact Or.inl rfl
  | cons t rest ih =>
    intro i st
    simp only [processTweets]
    cases hc : (deliverTweet u (env i) t st).2.2 with
    | true =>
      simp only [hc, if_true]
      rcases ih (i + 1) (deliverTweet u (env i) t st).2.1 with h | ⟨id, hmem, hval⟩
      · rcases deliverTweet_state_saved u (env i) t st with h' | ⟨h', hmem'⟩
        · exact Or.inl (by rw [h, h'])
        · refine Or.inr ⟨t.id, ?_, ?_⟩
          · rw [savedIds_append]
            exact List.mem_append_left _ hmem'
          · rw [h, h']
      · refine Or.inr ⟨id, ?_, hval⟩
        rw [savedIds_append]
        exact List.mem_append_right _ hmem
    | false =>
      simp only [hc, Bool.false_eq_true, if_false]
      rcases deliverTweet_state_saved u (env i) t st with h' | ⟨h', hmem'⟩
      · exact Or.inl (by rw [h'])
      · exact Or.inr ⟨t.id, hmem', h'⟩

theorem sortTweets_sorted (data : List Tweet) :
    (sortTweets data).Pairwise (fun a b => a.id ≤ b.id) := by
  have h := @List.sorted_mergeSort Tweet (fun a b => decide (a.id ≤ b.id))
    (by intro a b c hab hbc; simp at *; omega)
    (by intro a b; simp [Nat.le_total]) data
  exact h.imp (fun hab => by simpa using hab)

theorem sortTweets_perm (data : List Tweet) : (sortTweets data).Perm data :=
  List.mergeSort_perm data _

theorem mem_sortTweets {t : Tweet} {data : List Tweet} :
    t ∈ sortTweets data ↔ t ∈ data := List.mem_mergeSort

theorem deliverAfterSummary_embed (u : String) (pe : PostEnv) (t : Tweet)
    (st : CogState) (s : Option String) :
    (∀ id b url, Event.sendEmbed id b url ∈ (deliverAfterSummary u pe t st s).1 →
        b = pyOr s t.text)
    ∧ (pe.send1Ok = true →
        Event.sendEmbed t.id (pyOr s t.text) (tweet_url u t.id)
          ∈ (deliverAfterSummary u pe t st s).1) := by
  constructor
  · intro id b url hmem
    rcases deliverAfterSummary_shape u pe t st s with ⟨he, -⟩ | ⟨he, -⟩ | ⟨he, -⟩ | ⟨he, -⟩ <;>
      rw [he] at hmem <;> simp at hmem <;> tauto
  · intro h1
    unfold deliverAfterSummary
    simp only [h1, if_true]
    cases h2 : pe.send2Ok with
    | false => simp
    | true => simp

/-- C4: saving watermark value V and then loading yields V; loading when
the state file is missing, unreadable, or holds corrupt JSON yields the
absent value instead of raising. -/
theorem C4_watermark_roundtrip :
    (∀ (v : Nat) (st : CogState),
        _load_last_tweet_id (_save_last_tweet_id st v true).stateFile
          = .ok (some (.num (Int.ofNat v))))
    ∧ _load_last_tweet_id .missing = .ok none
    ∧ _load_last_tweet_id .unreadable = .ok none
    ∧ _load_last_tweet_id .corrupt = .ok none :=
  ⟨fun _ _ => rfl, rfl, rfl, rfl⟩

/-- C5: a rate-limited fetch delivers nothing, saves nothing, leaves the
state untouched, and the trace shows the loop interval being widened to
15 minutes and then restored to the configured interval. -/
theorem C5_rate_limit_cycle (username : String) (interval : Nat)
    (env : Nat → PostEnv) (st : CogState) :
    check_tweets username interval true .tooManyRequests env st
      = ([.intervalMinutes 15, .slept 1, .intervalSeconds interval], st)
    ∧ deliveredIds (check_tweets username interval true .tooManyRequests env st).1 = []
    ∧ savedIds (check_tweets username interval true .tooManyRequests env st).1 = [] :=
  ⟨rfl, rfl, rfl⟩

/-- C6 as stated is false: a 200 response whose JSON object body lacks
the expected "choices" structure makes `_summarize_tweet` raise a
`KeyError` to its caller instead of returning the absent summary. -/
theorem C6_counterexample :
    _summarize_tweet "hello" (.response 200 (.decoded (.obj [])))
      = .error "KeyError" := rfl

/-- C6 (amended): `_summarize_tweet` returns the absent summary, without
raising, on a transport-level `aiohttp.ClientError`, on every non-200
status, and on a 200 response whose body has a non-JSON content type; but
a 200 response whose body is undecodable JSON (or, per the
counterexample, decodes without the expected structure) raises to the
caller. -/
theorem C6_summarizer_errors (text : String) :
    _summarize_tweet text .clientError = .ok none
    ∧ (∀ status body, status ≠ 200 →
        _summarize_tweet text (.response status body) = .ok none)
    ∧ _summarize_tweet text (.response 200 .nonJsonMime) = .ok none
    ∧ _summarize_tweet text (.response 200 .invalidJson) = .error "JSONDecodeError" := by
  refine ⟨rfl, fun status body h => ?_, rfl, rfl⟩
  unfold _summarize_tweet
  simp [h]

theorem C6_witness :
    _summarize_tweet "t" (.response 404 .nonJsonMime) = .ok none :=
  (C6_summarizer_errors "t").2.1 404 .nonJsonMime (by decide)

/-- C7: when the summarizer returns the absent summary for a post, the
delivered embed body is exactly the post's raw text (hence non-empty when
the raw text is non-empty). -/
theorem C7_summary_none_falls_back (username : String) (pe : PostEnv) (t : Tweet)
    (st : CogState)
    (hsum : _summarize_tweet t.text pe.summResp = .ok none) :
    (∀ id b url, Event.sendEmbed id b url ∈ (deliverTweet username pe t st).1 →
        b = t.text)
    ∧ (pe.send1Ok = true →
        Event.sendEmbed t.id t.text (tweet_url username t.id)
          ∈ (deliverTweet username pe t st).1)
    ∧ (t.text ≠ "" →
        ∀ id b url, Event.sendEmbed id b url ∈ (deliverTweet username pe t st).1 →
          b ≠ "") := by
  have hd : deliverTweet username pe t st = deliverAfterSummary username pe t st none := by
    unfold deliverTweet; rw [hsum]
  rw [hd]
  have h := deliverAfterSummary_embed username pe t st none
  refine ⟨fun id b url hm => h.1 id b url hm, h.2, fun hne id b url hm => ?_⟩
  rw [h.1 id b url hm]
  exact hne

theorem C7_witness :
    Event.sendEmbed 7 "raw" (tweet_url "user" 7)
      ∈ (deliverTweet "user" ⟨.clientError, true, true, true⟩ ⟨7, "raw"⟩
          ⟨none, .missing⟩).1 :=
  (C7_summary_none_falls_back "user" ⟨.clientError, true, true, true⟩ ⟨7, "raw"⟩
    ⟨none, .missing⟩ rfl).2.1 rfl

/-- C10: when the summarizer returns an empty (falsy) string rather than
the absent value, the delivered embed body is still the post's raw text,
because `summary or tweet.text` tests truthiness. -/
theorem C10_empty_summary_falls_back (username : String) (pe : PostEnv) (t : Tweet)
    (st : CogState)
    (hsum : _summarize_tweet t.text pe.summResp = .ok (some "")) :
    (∀ id b url, Event.sendEmbed id b url ∈ (deliverTweet username pe t st).1 →
        b = t.text)
    ∧ (pe.send1Ok = true →
        Event.sendEmbed t.id t.text (tweet_url username t.id)
          ∈ (deliverTweet username pe t st).1) := by
  have hd : deliverTweet username pe t st
      = deliverAfterSummary username pe t st (some "") := by
    unfold deliverTweet; rw [hsum]
  have hpy : pyOr (some "") t.text = t.text := rfl
  rw [hd]
  have h := deliverAfterSummary_embed username pe t st (some "")
  rw [hpy] at h
  exact ⟨h.1, h.2⟩

theorem C10_witness :
    Event.sendEmbed 9 "raw" (tweet_url "user" 9)
      ∈ (deliverTweet "user"
          ⟨.response 200 (.decoded (.obj [("choices",
              .arr [.obj [("message", .obj [("content", .str "")])]])])), true, true, true⟩
          ⟨9, "raw"⟩ ⟨none, .missing⟩).1 :=
  (C10_empty_summary_falls_back "user"
    ⟨.response 200 (.decoded (.obj [("choices",
        .arr [.obj [("message", .obj [("content", .str "")])]])])), true, true, true⟩
    ⟨9, "raw"⟩ ⟨none, .missing⟩ rfl).2 rfl

/-- C2: within one fetched batch, the rich messages are delivered in
strictly ascending post-identifier order. -/
theorem C2_deliveries_ascending (username : String) (interval : Nat)
    (env : Nat → PostEnv) (st : CogState) (data : List Tweet)
    (hnodup : (data.map Tweet.id).Nodup) :
    List.Sorted (· < ·)
      (deliveredIds (check_tweets username interval true (.ok data) env st).1) := by
  have hsub := processTweets_deliveredIds username env (sortTweets data) 0 st
  have hle : List.Sorted (· ≤ ·) ((sortTweets data).map Tweet.id) :=
    List.pairwise_map.mpr (sortTweets_sorted data)
  have hnd : ((sortTweets data).map Tweet.id).Nodup :=
    (((sortTweets_perm data).map Tweet.id).symm).nodup hnodup
  have hlt := hle.lt_of_le hnd
  have hck : check_tweets username interval true (.ok data) env st
      = if (sortTweets data).isEmpty then ([], st)
        else processTweets username env 0 (sortTweets data) st := rfl
  rw [hck]
  by_cases he : (sortTweets data).isEmpty
  · rw [if_pos he]
    simp [deliveredIds]
  · rw [if_neg he]
    exact List.Pairwise.sublist hsub hlt

theorem C2_witness :
    ((([⟨103, "c"⟩, ⟨101, "a"⟩, ⟨102, "b"⟩] : List Tweet).map Tweet.id).Nodup)
    ∧ List.Sorted (· < ·)
        (deliveredIds (check_tweets "u" 300 true
          (.ok [⟨103, "c"⟩, ⟨101, "a"⟩, ⟨102, "b"⟩])
          (fun _ => ⟨.clientError, true, true, true⟩) ⟨none, .missing⟩).1) :=
  ⟨by decide, C2_deliveries_ascending "u" 300 _ _ _ (by decide)⟩

/-- C3: a cycle whose watermark is unchanged, run against an upstream
whose posts all have identifiers at most the watermark (the posts already
delivered), delivers nothing and leaves the state unchanged. -/
theorem C3_idempotent_cycle (username : String) (interval : Nat)
    (env : Nat → PostEnv) (st : CogState) (w : Nat) (upstream : List Tweet)
    (hw : st.last_tweet_id = some w)
    (hold : ∀ t ∈ upstream, t.id ≤ w) :
    check_tweets_cycle username interval true .ok upstream env st = ([], st) := by
  have hf : fetchSince upstream st.last_tweet_id = [] := by
    rw [hw]
    unfold fetchSince
    rw [List.filter_eq_nil_iff]
    intro t ht
    simpa using Nat.not_lt.mpr (hold t ht)
  have hstep : check_tweets_cycle username interval true .ok upstream env st
      = check_tweets username interval true (.ok []) env st := by
    unfold check_tweets_cycle cycleFetch
    rw [hf]
  rw [hstep]
  simp [check_tweets, sortTweets]

theorem C3_witness :
    check_tweets_cycle "u" 300 true .ok [⟨101, "a"⟩, ⟨103, "b"⟩]
      (fun _ => ⟨.clientError, true, true, true⟩) ⟨some 103, .missing⟩
      = ([], ⟨some 103, .missing⟩) :=
  C3_idempotent_cycle "u" 300 _ _ 103 _ rfl (by decide)

/-- C1: in every run of the poll cycle, every state-file watermark write
happens strictly after both channel messages for that post; every written
identifier belongs to a delivered post; the in-memory watermark either
keeps its initial value or equals an identifier that was written to the
state file in this cycle (hence, by the first conjunct, one whose both
messages were sent); and when a watermark exists, every value written is
strictly greater than it, the written values are nondecreasing, and the
final in-memory watermark never decreases. -/
theorem C1_watermark_only_after_delivery (username : String) (interval : Nat)
    (channelFound : Bool) (o : FetchOutcome) (upstream : List Tweet)
    (env : Nat → PostEnv) (st : CogState) :
    savesAfterSends username
      (check_tweets_cycle username interval channelFound o upstream env st).1
    ∧ (∀ id, id ∈ savedIds
          (check_tweets_cycle username interval channelFound o upstream env st).1 →
        id ∈ deliveredIds
          (check_tweets_cycle username interval channelFound o upstream env st).1)
    ∧ ((check_tweets_cycle username interval channelFound o upstream env st).2.last_tweet_id
          = st.last_tweet_id
        ∨ ∃ id ∈ savedIds
              (check_tweets_cycle username interval channelFound o upstream env st).1,
            (check_tweets_cycle username interval channelFound o upstream env st).2.last_tweet_id
              = some id)
    ∧ (∀ w, st.last_tweet_id = some w →
        (∀ x ∈ savedIds
            (check_tweets_cycle username interval channelFound o upstream env st).1, w < x)
        ∧ List.Sorted (· ≤ ·) (savedIds
            (check_tweets_cycle username interval channelFound o upstream env st).1)
        ∧ (∀ w', (check_tweets_cycle username interval channelFound o upstream env st).2.last_tweet_id
              = some w' → w ≤ w')) := by
  cases channelFound with
  | false =>
    have h : check_tweets_cycle username interval false o upstream env st = ([], st) := by
      cases o <;> rfl
    rw [h]
    refine ⟨savesAfterSends_of_no_saved _ _ rfl, ?_, Or.inl rfl, ?_⟩
    · intro id hid
      exact hid
    · intro w hw
      refine ⟨fun x hx => absurd hx (List.not_mem_nil x), List.sorted_nil, ?_⟩
      intro w' hw'
      exact le_of_eq (Option.some.inj (hw.symm.trans hw'))
  | true =>
    cases o with
    | tooManyRequests =>
      have h : check_tweets_cycle username interval true .tooManyRequests upstream env st
          = ([.intervalMinutes 15, .slept 1, .intervalSeconds interval], st) := rfl
      rw [h]
      refine ⟨savesAfterSends_of_no_saved _ _ rfl, ?_, Or.inl rfl, ?_⟩
      · intro id hid
        simp [savedIds, deliveredIds] at hid ⊢
      · intro w hw
        refine ⟨?_, ?_, ?_⟩
        · intro x hx
          simp [savedIds] at hx
        · simp [savedIds]
        · intro w' hw'
          exact le_of_eq (Option.some.inj (hw.symm.trans hw'))
    | otherError =>
      have h : check_tweets_cycle username interval true .otherError upstream env st
          = ([], st) := rfl
      rw [h]
      refine ⟨savesAfterSends_of_no_saved _ _ rfl, ?_, Or.inl rfl, ?_⟩
      · intro id hid
        exact hid
      · intro w hw
        refine ⟨fun x hx => absurd hx (List.not_mem_nil x), List.sorted_nil, ?_⟩
        intro w' hw'
        exact le_of_eq (Option.some.inj (hw.symm.trans hw'))
    | ok =>
      have h : check_tweets_cycle username interval true .ok upstream env st
          = if (sortTweets (fetchSince upstream st.last_tweet_id)).isEmpty then ([], st)
            else processTweets username env 0
              (sortTweets (fetchSince upstream st.last_tweet_id)) st := rfl
      by_cases he : (sortTweets (fetchSince upstream st.last_tweet_id)).isEmpty
      · rw [h, if_pos he]
        refine ⟨savesAfterSends_of_no_saved _ _ rfl, ?_, Or.inl rfl, ?_⟩
        · intro id hid
          exact hid
        · intro w hw
          refine ⟨fun x hx => absurd hx (List.not_mem_nil x), List.sorted_nil, ?_⟩
          intro w' hw'
          exact le_of_eq (Option.some.inj (hw.symm.trans hw'))
      · rw [h, if_neg he]
        refine ⟨processTweets_savesAfterSends username env _ 0 st,
          processTweets_saved_sub_delivered username env _ 0 st,
          processTweets_state_saved username env _ 0 st, ?_⟩
        intro w hw
        have hsubS := processTweets_savedIds username env
          (sortTweets (fetchSince upstream st.last_tweet_id)) 0 st
        have hmemts : ∀ x ∈ (sortTweets (fetchSince upstream st.last_tweet_id)).map Tweet.id,
            w < x := by
          intro x hx
          rcases List.mem_map.mp hx with ⟨t, ht, rfl⟩
          have hmem : t ∈ fetchSince upstream st.last_tweet_id := mem_sortTweets.mp ht
          rw [hw] at hmem
          exact of_decide_eq_true (List.mem_filter.mp hmem).2
        refine ⟨?_, ?_, ?_⟩
        · intro x hx
          exact hmemts x (hsubS.subset hx)
        · exact List.Pairwise.sublist hsubS
            (List.pairwise_map.mpr (sortTweets_sorted _))
        · intro w' hw'
          rcases processTweets_state_saved username env
              (sortTweets (fetchSince upstream st.last_tweet_id)) 0 st with hfin | ⟨id, hid, hval⟩
          · rw [hfin] at hw'
            exact le_of_eq (Option.some.inj (hw.symm.trans hw'))
          · have hidw : id = w' := Option.some.inj (hval.symm.trans hw')
            subst hidw
            exact le_of_lt (hmemts id (hsubS.subset hid))

theorem C1_witness :
    (∀ x ∈ savedIds (check_tweets_cycle "u" 300 true .ok [⟨101, "x"⟩]
        (fun _ => ⟨.clientError, true, true, true⟩) ⟨some 100, .missing⟩).1, 100 < x)
    ∧ List.Sorted (· ≤ ·) (savedIds (check_tweets_cycle "u" 300 true .ok [⟨101, "x"⟩]
        (fun _ => ⟨.clientError, true, true, true⟩) ⟨some 100, .missing⟩).1) :=
  let h := (C1_watermark_only_after_delivery "u" 300 true .ok [⟨101, "x"⟩]
    (fun _ => ⟨.clientError, true, true, true⟩) ⟨some 100, .missing⟩).2.2.2 100 rfl
  ⟨h.1, h.2.1⟩

/-- C8: during startup identity resolution, the k-th failed attempt is
followed by a sleep of `60 * 2 ^ k` seconds (1, 2, 4, 8 minutes), at most
4 attempts are ever made, and when all four fail the shared HTTP session
is released and the bot is stopped instead of entering the polling
loop. -/
theorem C8_startup_retry (g : Nat → Option Nat) (sf : StateFile) :
    ((∀ k, k < 4 → g k = none) →
      cog_load g sf true
        = ([.attempt 0, .slept 60, .attempt 1, .slept 120, .attempt 2, .slept 240,
            .attempt 3, .slept 480, .closedSession, .closedBot], .halted))
    ∧ (∀ sess, countAttempts (cog_load g sf sess).1 ≤ 4)
    ∧ (∀ k, k < 4 → (∀ j, j ≤ k → g j = none) →
        (cog_load g sf true).1.take (2 * (k + 1))
          = ((List.range (k + 1)).map
              (fun j => [StartEvent.attempt j, StartEvent.slept (2 ^ j * 60)])).flatten) := by
  refine ⟨?_, ?_, ?_⟩
  · intro hfail
    have h0 := hfail 0 (by norm_num)
    have h1 := hfail 1 (by norm_num)
    have h2 := hfail 2 (by norm_num)
    have h3 := hfail 3 (by norm_num)
    simp [cog_load, cogLoadLoop, h0, h1, h2, h3]
  · intro sess
    unfold cog_load
    rcases h0 : g 0 with _ | u0 <;> rcases h1 : g 1 with _ | u1 <;>
      rcases h2 : g 2 with _ | u2 <;> rcases h3 : g 3 with _ | u3 <;>
      rcases hl : _load_last_tweet_id sf with e | wm <;> cases sess <;>
      simp [cogLoadLoop, countAttempts, h0, h1, h2, h3, hl]
  · intro k hk hfail
    interval_cases k
    · have h0 := hfail 0 (by norm_num)
      simp [cog_load, cogLoadLoop, h0]
      rfl
    · have h0 := hfail 0 (by norm_num)
      have h1 := hfail 1 (by norm_num)
      simp [cog_load, cogLoadLoop, h0, h1]
      rfl
    · have h0 := hfail 0 (by norm_num)
      have h1 := hfail 1 (by norm_num)
      have h2 := hfail 2 (by norm_num)
      simp [cog_load, cogLoadLoop, h0, h1, h2]
      rfl
    · have h0 := hfail 0 (by norm_num)
      have h1 := hfail 1 (by norm_num)
      have h2 := hfail 2 (by norm_num)
      have h3 := hfail 3 (by norm_num)
      simp [cog_load, cogLoadLoop, h0, h1, h2, h3]
      rfl

theorem C8_witness :
    cog_load (fun _ => none) .missing true
      = ([.attempt 0, .slept 60, .attempt 1, .slept 120, .attempt 2, .slept 240,
          .attempt 3, .slept 480, .closedSession, .closedBot], .halted) :=
  (C8_startup_retry (fun _ => none) .missing).1 (fun _ _ => rfl)

/-- C9 as stated is false: when every required variable is present except
the destination channel identifier, the process dies during module
initialization with an uncaught TypeError from
`int(os.getenv("DISCORD_CHANNEL_ID"))`, not with a logged critical
error. -/
theorem C9_counterexample :
    mainStartup ⟨some "tok", none, some "bearer", some "user", some "key"⟩
      = .uncaughtError "TypeError"
    ∧ mainStartup ⟨some "tok", none, some "bearer", some "user", some "key"⟩
      ≠ .criticalNoStart :=
  ⟨rfl, by decide⟩

/-- C9 (amended): an absent channel identifier kills the process with an
uncaught TypeError during module initialization (before any logging); if
the channel identifier is present and parses but any of the other four
required values is absent, the `__main__` guard logs critical and never
constructs the bot; in either case the bot (and hence the scheduler)
never runs. -/
theorem C9_missing_config (e : ProcEnv) :
    (e.DISCORD_CHANNEL_ID = none → mainStartup e = .uncaughtError "TypeError")
    ∧ ((e.DISCORD_TOKEN = none ∨ e.TWITTER_BEARER_TOKEN = none
        ∨ e.SENTIENT_API_KEY = none ∨ e.TWITTER_USERNAME = none) →
        mainStartup e ≠ .runsBot
        ∧ (∀ n, pyIntOfEnv e.DISCORD_CHANNEL_ID = .ok n →
            mainStartup e = .criticalNoStart)) := by
  constructor
  · intro h
    unfold mainStartup
    rw [h]
    rfl
  · intro h
    have htr : (pyTruthy e.DISCORD_TOKEN && pyTruthy e.TWITTER_BEARER_TOKEN
        && pyTruthy e.SENTIENT_API_KEY && pyTruthy e.TWITTER_USERNAME) = false := by
      rcases h with h | h | h | h <;> simp [pyTruthy, h]
    constructor
    · intro hrun
      unfold mainStartup at hrun
      rcases hp : pyIntOfEnv e.DISCORD_CHANNEL_ID with err | n <;>
        simp [hp, htr] at hrun
    · intro n hp
      unfold mainStartup
      simp [hp, htr]

theorem C9_witness :
    mainStartup ⟨none, some "1", some "b", some "u", some "k"⟩ = .criticalNoStart :=
  ((C9_missing_config ⟨none, some "1", some "b", some "u", some "k"⟩).2
    (Or.inl rfl)).2 1 rfl
